import Mathlib

/-
  Verification of the inquiry-funnel and payment-reconciliation logic of the
  architect-portfolio backend.

  The JavaScript controllers are shallowly embedded as pure Lean functions:
  the effect of each HTTP handler on the single MongoDB document it targets is a
  function on an explicit `Inquiry` (resp. `Project`) state, with `new Date()`
  modelled as an explicit `now : Nat` argument, MongoDB `$set` updates as
  record updates, and calls to the external payment service (Stripe) as
  explicit inputs describing what the service reported.
-/

namespace Portfolio

/-- JavaScript `a || b` on strings: the empty string is falsy. -/
def jsOrStr (a b : String) : String := if a = "" then b else a

/-- JavaScript `x || null` on an optional string: absent or empty becomes null. -/
def orNull (x : Option String) : Option String :=
  match x with
  | none => none
  | some s => if s = "" then none else some s

/-- JavaScript `String.prototype.trim`: strip leading and trailing whitespace. -/
def jsTrim (s : String) : String :=
  String.mk (((s.data.dropWhile Char.isWhitespace).reverse.dropWhile Char.isWhitespace).reverse)

/-- JavaScript `String.prototype.toLowerCase` (ASCII letters). -/
def jsToLower (s : String) : String := String.mk (s.data.map Char.toLower)

/-- Consultation details recorded at step 4 of the consult path
(`inquiryController.js`, `updateConsultationDetails`). -/
structure ConsultationDetails where
  duration : String
  roadmapReport : Bool
  format : String
  selectedDate : Option String
  selectedTime : Option String
  deriving DecidableEq, Repr

/-- The central `inquiries` document. Fields that MongoDB may leave absent or
null are `Option`; timestamps are abstract instants (`Nat`). -/
structure Inquiry where
  clientType : String
  firstName : String
  lastName : String
  email : String
  phone : String
  address : String
  selectedServices : List String
  budget : String
  timeline : String
  surface : String
  description : String
  documentUrls : List String
  selectedPath : Option String
  consultationDetails : Option ConsultationDetails
  step : Nat
  status : String
  paymentStatus : Option String
  invoiceStatus : Option String
  stripeSessionId : Option String
  stripeCustomerId : Option String
  stripeInvoiceId : Option String
  paidAt : Option Nat
  submittedAt : Option Nat
  updatedAt : Nat
  deriving DecidableEq, Repr

/-- The data the webhook reads off a Stripe checkout session object:
`session.metadata.inquiryId` (absent modelled as `""`), `session.customer`,
`session.invoice`, `session.metadata.clientType` (absent modelled as `""`),
and `session.payment_status`. -/
structure WebhookSession where
  inquiryId : String
  customerId : Option String
  invoiceId : Option String
  clientTypeMeta : String
  paymentStatus : String
  deriving DecidableEq, Repr

/-- The `$set` applied by `handleWebhook` in `billingController.js` on a
`checkout.session.completed` event (lines 485-501): an unconditional upsert of
`paymentStatus`, `status`, both Stripe references, `invoiceStatus`, `paidAt`
and `updatedAt`, branching only on the `payment_status` of the session and on the
client type from the session metadata. `paidAt: undefined` on the non-paid
branch is serialized as null by the MongoDB driver. -/
def applyCheckoutCompleted (s : WebhookSession) (now : Nat) (i : Inquiry) : Inquiry :=
  { i with
    paymentStatus := some (if s.paymentStatus = "paid" then "paid" else "pending")
    status := if s.paymentStatus = "paid" then "paid" else "pending"
    stripeCustomerId := orNull s.customerId
    stripeInvoiceId := orNull s.invoiceId
    invoiceStatus := some
      (if s.paymentStatus = "paid" ∧ jsOrStr s.clientTypeMeta "private" = "business" then
        "billing_pending"
      else if s.paymentStatus = "paid" then "finalized" else "pending")
    paidAt := if s.paymentStatus = "paid" then some now else none
    updatedAt := now }

/-- The `$set` applied by `handleWebhook` on a
`checkout.session.async_payment_succeeded` event (`billingController.js`):
unconditionally marks the inquiry paid. -/
def applyAsyncPaid (s : WebhookSession) (now : Nat) (i : Inquiry) : Inquiry :=
  { i with
    paymentStatus := some "paid"
    status := "paid"
    stripeCustomerId := orNull s.customerId
    stripeInvoiceId := orNull s.invoiceId
    invoiceStatus := some
      (if jsOrStr s.clientTypeMeta "private" = "business" then "billing_pending" else "finalized")
    paidAt := some now
    updatedAt := now }

/-- `verifyPaymentStatus` (`billingController.js`, lines 620-652), restricted to
its effect on the inquiry document: given the `payment_status` Stripe reports
for the stored session, it writes paid-state fields only when Stripe says
`paid` and the local record is not yet paid; otherwise it writes nothing. -/
def verifyPaymentApply (stripeStatus : String) (now : Nat) (i : Inquiry) : Inquiry :=
  if stripeStatus = "paid" ∧ i.paymentStatus ≠ some "paid" then
    { i with
      paymentStatus := some "paid"
      status := "paid"
      paidAt := some now
      updatedAt := now }
  else i

/-- The opportunistic catch-up update in `getCheckoutSession`
(`billingController.js`, lines 383-396): whenever the retrieved session reports
`paid` (and the metadata carries a valid inquiry id), the paid-state fields are
written unconditionally; otherwise nothing is written. -/
def getCheckoutSessionApply (stripeStatus : String) (now : Nat) (i : Inquiry) : Inquiry :=
  if stripeStatus = "paid" then
    { i with
      paymentStatus := some "paid"
      status := "paid"
      paidAt := some now
      updatedAt := now }
  else i

/-- `ObjectId.isValid` on a string: 24 hexadecimal characters. -/
def isValidObjectId (s : String) : Bool :=
  s.length = 24 && s.data.all (fun c => c.isDigit || ('a' ≤ c && c ≤ 'f') || ('A' ≤ c && c ≤ 'F'))

/-- The verified Stripe events dispatched by `handleWebhook`
(`billingController.js`): the two session events carry the session data, the
rest are logged only. -/
inductive StripeEvent where
  | checkoutCompleted (s : WebhookSession)
  | asyncPaymentSucceeded (s : WebhookSession)
  | paymentIntentSucceeded (id : String)
  | invoiceFinalized (id : String)
  | invoicePaymentSucceeded (id : String)
  | other (eventType : String)
  deriving DecidableEq, Repr

/-- Webhook HTTP outcome: the 400 sent on signature-verification failure, or
the `{received: true}` acknowledgement. -/
inductive WebhookResp where
  | sigError400
  | received
  deriving DecidableEq, Repr

/-- The inquiries collection, as an association of document ids to documents. -/
def Store := List (String × Inquiry)

/-- MongoDB `updateOne` by `_id`: apply `f` to the matching document. -/
def updateById (store : Store) (id : String) (f : Inquiry → Inquiry) : Store :=
  store.map (fun p => if p.1 = id then (p.1, f p.2) else p)

/-- `handleWebhook` (`billingController.js`, lines 434-583).
`verified` is the outcome of `stripe.webhooks.constructEvent`: `none` when
signature verification against the signing secret throws, in which case the
handler returns 400 before touching the database. On a session event the
matching inquiry is updated only when the metadata holds a valid inquiry id. -/
def handleWebhook (verified : Option StripeEvent) (now : Nat) (store : Store) :
    WebhookResp × Store :=
  match verified with
  | none => (WebhookResp.sigError400, store)
  | some ev =>
    match ev with
    | StripeEvent.checkoutCompleted s =>
      if s.inquiryId = "" ∨ isValidObjectId s.inquiryId = false then
        (WebhookResp.received, store)
      else
        (WebhookResp.received, updateById store s.inquiryId (applyCheckoutCompleted s now))
    | StripeEvent.asyncPaymentSucceeded s =>
      if s.inquiryId = "" ∨ isValidObjectId s.inquiryId = false then
        (WebhookResp.received, store)
      else
        (WebhookResp.received, updateById store s.inquiryId (applyAsyncPaid s now))
    | _ => (WebhookResp.received, store)

/-- A sample inquiry document used for concrete evaluations. -/
def baseInquiry : Inquiry :=
  { clientType := "private"
    firstName := ""
    lastName := ""
    email := "a@b.co"
    phone := ""
    address := ""
    selectedServices := []
    budget := ""
    timeline := ""
    surface := ""
    description := ""
    documentUrls := []
    selectedPath := none
    consultationDetails := none
    step := 1
    status := "draft"
    paymentStatus := none
    invoiceStatus := none
    stripeSessionId := none
    stripeCustomerId := none
    stripeInvoiceId := none
    paidAt := none
    submittedAt := none
    updatedAt := 0 }

/-- A paid checkout session for a private client, as delivered to the webhook. -/
def paidSession : WebhookSession :=
  { inquiryId := "507f1f77bcf86cd799439011"
    customerId := some "cus_1"
    invoiceId := some "in_1"
    clientTypeMeta := "private"
    paymentStatus := "paid" }

/-- Claim C1, counterexample. Redelivering the same paid
`checkout.session.completed` event at a later instant re-stamps `paidAt` with
the later `new Date()`, so the twice-applied state differs from the
once-applied state on `paidAt`. -/
theorem webhook_redelivery_counterexample :
    (applyCheckoutCompleted paidSession 1 (applyCheckoutCompleted paidSession 0 baseInquiry)).paidAt
      ≠ (applyCheckoutCompleted paidSession 0 baseInquiry).paidAt := by
  decide

/-- Claim C1, amended. Applying the paid webhook transition twice leaves
`invoiceStatus` (and `paymentStatus` and `status`) equal to the result of
applying it once; the state is fully equal only when both deliveries carry the
same processing instant, and `paidAt` is otherwise re-stamped to the later
delivery instant. -/
theorem webhook_redelivery_idempotent_amended
    (s : WebhookSession) (i : Inquiry) (t u : Nat) (hp : s.paymentStatus = "paid") :
    (applyCheckoutCompleted s u (applyCheckoutCompleted s t i)).invoiceStatus
        = (applyCheckoutCompleted s t i).invoiceStatus
    ∧ (applyCheckoutCompleted s u (applyCheckoutCompleted s t i)).paymentStatus
        = (applyCheckoutCompleted s t i).paymentStatus
    ∧ (applyCheckoutCompleted s u (applyCheckoutCompleted s t i)).status
        = (applyCheckoutCompleted s t i).status
    ∧ (applyCheckoutCompleted s u (applyCheckoutCompleted s t i)).paidAt = some u
    ∧ (u = t → applyCheckoutCompleted s u (applyCheckoutCompleted s t i)
        = applyCheckoutCompleted s t i) := by
  refine ⟨rfl, rfl, rfl, ?_, ?_⟩
  · simp [applyCheckoutCompleted, hp]
  · intro h
    subst h
    rfl

/-- Witness for the amended claim C1 at a concrete paid session and inquiry. -/
theorem webhook_redelivery_idempotent_witness :
    (applyCheckoutCompleted paidSession 5 (applyCheckoutCompleted paidSession 5 baseInquiry)).invoiceStatus
        = (applyCheckoutCompleted paidSession 5 baseInquiry).invoiceStatus
    ∧ (applyCheckoutCompleted paidSession 5 (applyCheckoutCompleted paidSession 5 baseInquiry)).paidAt
        = some 5 := by
  have h := webhook_redelivery_idempotent_amended paidSession baseInquiry 5 5 rfl
  exact ⟨h.1, h.2.2.2.1⟩

/-- Claim C2, counterexample. For a paid checkout session, the fallback
reconciler alone and the webhook alone do not yield the same final inquiry
state: the webhook sets `invoiceStatus` (here `finalized` for a private
client) while the reconciler leaves it untouched. -/
theorem webhook_verify_commute_counterexample :
    (verifyPaymentApply "paid" 0 baseInquiry).invoiceStatus
      ≠ (applyCheckoutCompleted paidSession 0 baseInquiry).invoiceStatus := by
  decide

/-- Claim C2, amended. For a paid checkout session, applying the webhook and
the fallback reconciler in either order (at arbitrary instants) yields exactly
the state produced by the webhook alone at its own delivery instant: the
reconciler is a no-op after the webhook, and the webhook overwrites every
field the reconciler wrote. The reconciler alone, however, establishes only
`paymentStatus`/`status`/`paidAt` and leaves `invoiceStatus` and the
customer/invoice references unset, so it does not coincide with the webhook
final state. -/
theorem webhook_verify_commute_amended
    (s : WebhookSession) (i : Inquiry) (tw tv : Nat) (hp : s.paymentStatus = "paid") :
    applyCheckoutCompleted s tw (verifyPaymentApply "paid" tv i)
        = applyCheckoutCompleted s tw i
    ∧ verifyPaymentApply "paid" tv (applyCheckoutCompleted s tw i)
        = applyCheckoutCompleted s tw i := by
  constructor
  · unfold verifyPaymentApply
    split
    · rfl
    · rfl
  · unfold verifyPaymentApply
    rw [if_neg]
    intro h
    rcases h with ⟨-, hne⟩
    apply hne
    simp [applyCheckoutCompleted, hp]

/-- Witness for the amended claim C2 at a concrete paid session and inquiry. -/
theorem webhook_verify_commute_witness :
    applyCheckoutCompleted paidSession 3 (verifyPaymentApply "paid" 1 baseInquiry)
        = applyCheckoutCompleted paidSession 3 baseInquiry
    ∧ verifyPaymentApply "paid" 7 (applyCheckoutCompleted paidSession 3 baseInquiry)
        = applyCheckoutCompleted paidSession 3 baseInquiry := by
  exact ⟨(webhook_verify_commute_amended paidSession baseInquiry 3 1 rfl).1,
    (webhook_verify_commute_amended paidSession baseInquiry 3 7 rfl).2⟩

/-- Claim C3. Once the local record shows `paymentStatus = paid`, the fallback
reconciler writes nothing at all (whatever Stripe reports), and the
session-status lookup keeps `paymentStatus` at `paid` and never moves `status`
away from `paid`. -/
theorem no_regress_paid
    (i : Inquiry) (stripeStatus : String) (t : Nat) (hp : i.paymentStatus = some "paid") :
    verifyPaymentApply stripeStatus t i = i
    ∧ (getCheckoutSessionApply stripeStatus t i).paymentStatus = some "paid"
    ∧ (i.status = "paid" → (getCheckoutSessionApply stripeStatus t i).status = "paid") := by
  refine ⟨?_, ?_, ?_⟩
  · unfold verifyPaymentApply
    rw [if_neg]
    intro h
    exact h.2 (by rw [hp])
  · unfold getCheckoutSessionApply
    split
    · rfl
    · exact hp
  · intro hs
    unfold getCheckoutSessionApply
    split
    · rfl
    · exact hs

/-- Witness for claim C3: a concrete already-paid inquiry is untouched by the
reconciler and keeps paid status through the session lookup, even when Stripe
reports `unpaid`. -/
theorem no_regress_paid_witness :
    verifyPaymentApply "unpaid" 9 (applyCheckoutCompleted paidSession 0 baseInquiry)
        = applyCheckoutCompleted paidSession 0 baseInquiry
    ∧ (getCheckoutSessionApply "unpaid" 9 (applyCheckoutCompleted paidSession 0 baseInquiry)).paymentStatus
        = some "paid" := by
  have h := no_regress_paid (applyCheckoutCompleted paidSession 0 baseInquiry) "unpaid" 9 (by decide)
  exact ⟨h.1, h.2.1⟩

/-- Claim C8. When signature verification against the signing secret fails
(`stripe.webhooks.constructEvent` throws), the webhook handler answers with
the 400 rejection and performs no document-store write: every inquiry in the
store is unchanged. -/
theorem webhook_sig_failure_no_write (store : Store) (now : Nat) :
    handleWebhook none now store = (WebhookResp.sigError400, store) := by
  rfl

/-- Claim C10. A verified `checkout.session.completed` event whose
`payment_status` is not `paid` is not ignored: for a valid inquiry id the
handler runs the same unconditional upsert, overwriting `paymentStatus`,
`status` and `invoiceStatus` with `pending` on whatever inquiry is stored,
including one already marked paid. -/
theorem webhook_nonpaid_overwrites_pending
    (s : WebhookSession) (i : Inquiry) (now : Nat) (store : Store)
    (hnp : s.paymentStatus ≠ "paid") (hid : isValidObjectId s.inquiryId = true) :
    (applyCheckoutCompleted s now i).paymentStatus = some "pending"
    ∧ (applyCheckoutCompleted s now i).status = "pending"
    ∧ (applyCheckoutCompleted s now i).invoiceStatus = some "pending"
    ∧ handleWebhook (some (StripeEvent.checkoutCompleted s)) now store
        = (WebhookResp.received, updateById store s.inquiryId (applyCheckoutCompleted s now)) := by
  refine ⟨?_, ?_, ?_, ?_⟩
  · simp [applyCheckoutCompleted, hnp]
  · simp [applyCheckoutCompleted, hnp]
  · simp [applyCheckoutCompleted, hnp]
  · have hne : ¬ s.inquiryId = "" := by
      intro h
      rw [h] at hid
      exact absurd hid (by decide)
    show (if s.inquiryId = "" ∨ isValidObjectId s.inquiryId = false then
        (WebhookResp.received, store)
      else (WebhookResp.received, updateById store s.inquiryId (applyCheckoutCompleted s now)))
      = (WebhookResp.received, updateById store s.inquiryId (applyCheckoutCompleted s now))
    rw [if_neg]
    intro h
    rcases h with h | h
    · exact hne h
    · rw [hid] at h
      cases h

/-- A checkout session reporting `unpaid` for an already-paid inquiry. -/
def unpaidSession : WebhookSession :=
  { inquiryId := "507f1f77bcf86cd799439011"
    customerId := none
    invoiceId := none
    clientTypeMeta := ""
    paymentStatus := "unpaid" }

/-- Witness for claim C10: a concrete unpaid-session redelivery on an inquiry
already marked paid resets it to pending. -/
theorem webhook_nonpaid_overwrites_pending_witness :
    (applyCheckoutCompleted unpaidSession 2 (applyCheckoutCompleted paidSession 1 baseInquiry)).paymentStatus
        = some "pending"
    ∧ (applyCheckoutCompleted unpaidSession 2 (applyCheckoutCompleted paidSession 1 baseInquiry)).invoiceStatus
        = some "pending" := by
  have h := webhook_nonpaid_overwrites_pending unpaidSession
    (applyCheckoutCompleted paidSession 1 baseInquiry) 2 [] (by decide) (by decide)
  exact ⟨h.1, h.2.2.1⟩

/-- `submitGeneralInquiry` (`inquiryController.js`, lines 166-221), on a found
inquiry: rejected with 400 unless `selectedPath` is exactly `general`;
otherwise stamps step 4, `submitted` status and `submittedAt`. -/
def submitGeneralInquiry (now : Nat) (i : Inquiry) : Nat × Inquiry :=
  if i.selectedPath ≠ some "general" then (400, i)
  else
    (200, { i with
      step := 4
      status := "submitted"
      submittedAt := some now
      updatedAt := now })

/-- Request body of `updateConsultationDetails`: each field may be absent. -/
structure ConsultationReq where
  duration : String
  roadmapReport : Bool
  format : String
  selectedDate : Option String
  selectedTime : Option String
  deriving DecidableEq, Repr

/-- `updateConsultationDetails` (`inquiryController.js`, lines 226-276), on a
found inquiry: writes the consultation details (with defaults for absent
fields) and step 4, with no check of `selectedPath` or `status`. -/
def updateConsultationDetails (r : ConsultationReq) (now : Nat) (i : Inquiry) :
    Nat × Inquiry :=
  (200, { i with
    consultationDetails := some
      { duration := jsOrStr r.duration "60"
        roadmapReport := r.roadmapReport
        format := jsOrStr r.format "online"
        selectedDate := orNull r.selectedDate
        selectedTime := orNull r.selectedTime }
    step := 4
    updatedAt := now })

/-- Request body of `updateInquiryContext`: absent fields are `none`;
`selectedServices` is `none` whenever the body field is not an array;
`uploadedDocs` is what the upload middleware put into
`req.uploadedFiles.documents` (an empty list when nothing was uploaded). -/
structure ContextReq where
  address : Option String
  selectedServices : Option (List String)
  budget : Option String
  timeline : Option String
  surface : Option String
  description : Option String
  uploadedDocs : List String
  deriving DecidableEq, Repr

/-- `updateInquiryContext` (`inquiryController.js`, lines 52-105), on a found
inquiry: a single `$set` that writes every context field from the request,
substituting defaults (`""`, `[]`, `"asap"`) for absent fields and replacing
`documentUrls` with the freshly uploaded set, together with step 2. -/
def updateInquiryContext (r : ContextReq) (now : Nat) (i : Inquiry) : Nat × Inquiry :=
  (200, { i with
    address := (r.address.map jsTrim).getD ""
    selectedServices := r.selectedServices.getD []
    budget := jsOrStr (r.budget.getD "") ""
    timeline := jsOrStr (r.timeline.getD "") "asap"
    surface := jsOrStr (r.surface.getD "") ""
    description := (r.description.map jsTrim).getD ""
    documentUrls := r.uploadedDocs
    step := 2
    updatedAt := now })

/-- A consultation-details request leaving every optional field to default. -/
def sampleConsultReq : ConsultationReq :=
  { duration := "60"
    roadmapReport := false
    format := "online"
    selectedDate := none
    selectedTime := none }

/-- An inquiry that chose the general path at step 3. -/
def generalPathInquiry : Inquiry :=
  { baseInquiry with selectedPath := some "general", step := 3 }

/-- Claim C4, counterexample. On an inquiry whose `selectedPath` is `general`,
the consultation-details operation is not rejected: it answers 200 and
mutates the inquiry (consultation details are recorded and step jumps to 4). -/
theorem path_exclusivity_counterexample :
    (updateConsultationDetails sampleConsultReq 1 generalPathInquiry).1 = 200
    ∧ (updateConsultationDetails sampleConsultReq 1 generalPathInquiry).2 ≠ generalPathInquiry := by
  refine ⟨rfl, ?_⟩
  decide

/-- Claim C4, amended. Only one direction of path exclusivity is enforced: on
an inquiry with `selectedPath = consult`, submit-general is rejected with 400
and leaves the inquiry unchanged; but the consultation-details operation
accepts any inquiry regardless of its path (it carries no path check). -/
theorem path_exclusivity_amended
    (i : Inquiry) (r : ConsultationReq) (now : Nat) (hc : i.selectedPath = some "consult") :
    submitGeneralInquiry now i = (400, i)
    ∧ (updateConsultationDetails r now i).1 = 200 := by
  constructor
  · unfold submitGeneralInquiry
    rw [if_pos]
    rw [hc]
    decide
  · rfl

/-- Witness for the amended claim C4 on a concrete consult-path inquiry. -/
theorem path_exclusivity_witness :
    submitGeneralInquiry 1 { baseInquiry with selectedPath := some "consult" }
        = (400, { baseInquiry with selectedPath := some "consult" })
    ∧ (updateConsultationDetails sampleConsultReq 1
        { baseInquiry with selectedPath := some "consult" }).1 = 200 :=
  path_exclusivity_amended { baseInquiry with selectedPath := some "consult" }
    sampleConsultReq 1 rfl

/-- A context request supplying nothing: no body fields, no uploads. -/
def emptyContextReq : ContextReq :=
  { address := none
    selectedServices := none
    budget := none
    timeline := none
    surface := none
    description := none
    uploadedDocs := [] }

/-- An inquiry that already holds step-2 context. -/
def contextedInquiry : Inquiry :=
  { baseInquiry with
    address := "12 rue de la Paix"
    selectedServices := ["architecture"]
    timeline := "6m"
    documentUrls := ["https://cdn/doc1.pdf"]
    step := 2 }

/-- Claim C5, counterexample. The add-context operation is not a merge:
calling it without supplying `address` (and with no uploaded documents) erases
the previously stored address and document URLs. -/
theorem context_merge_counterexample :
    (updateInquiryContext emptyContextReq 1 contextedInquiry).2.address
        ≠ contextedInquiry.address
    ∧ (updateInquiryContext emptyContextReq 1 contextedInquiry).2.documentUrls
        ≠ contextedInquiry.documentUrls := by
  constructor
  · decide
  · decide

/-- Claim C5, amended. The add-context operation overwrites rather than
merges: the resulting context fields (address, services, budget, timeline,
surface, description, document URLs, step) are determined by the request
alone, independent of whatever context the inquiry previously held — absent
fields are reset to their defaults. Repeating the call with the same input and
instant is idempotent. -/
theorem context_overwrite_amended (r : ContextReq) (now : Nat) (i j : Inquiry) :
    (updateInquiryContext r now ((updateInquiryContext r now i).2)).2
        = (updateInquiryContext r now i).2
    ∧ ((updateInquiryContext r now i).2.address, (updateInquiryContext r now i).2.selectedServices,
        (updateInquiryContext r now i).2.budget, (updateInquiryContext r now i).2.timeline,
        (updateInquiryContext r now i).2.surface, (updateInquiryContext r now i).2.description,
        (updateInquiryContext r now i).2.documentUrls, (updateInquiryContext r now i).2.step)
      = ((updateInquiryContext r now j).2.address, (updateInquiryContext r now j).2.selectedServices,
        (updateInquiryContext r now j).2.budget, (updateInquiryContext r now j).2.timeline,
        (updateInquiryContext r now j).2.surface, (updateInquiryContext r now j).2.description,
        (updateInquiryContext r now j).2.documentUrls, (updateInquiryContext r now j).2.step) := by
  exact ⟨rfl, rfl⟩

/-- JavaScript `x || d` on an optional number: an absent lookup result, or the
number 0, falls back to the default. -/
def jsOrNat (x : Option Nat) (d : Nat) : Nat :=
  match x with
  | none => d
  | some n => if n = 0 then d else n

/-- The fixed duration-price lookup table of `createCheckoutSession`
(`billingController.js`, lines 233-237), in euro-cents, keyed by the `duration` string of the request. -/
def durationPrices (d : String) : Option Nat :=
  if d = "30" then some 6499
  else if d = "60" then some 9999
  else if d = "90" then some 15999
  else none

/-- `basePrice`: the table lookup with the JavaScript `||` fallback to the
60-minute price. -/
def basePrice (d : String) : Nat := jsOrNat (durationPrices d) 9999

/-- `roadmapPrice`: the €50.00 add-on when the roadmap report is requested. -/
def roadmapPrice (roadmapReport : Bool) : Nat := if roadmapReport then 5000 else 0

/-- `totalPrice = basePrice + roadmapPrice` as computed by
`createCheckoutSession`. -/
def totalPrice (d : String) (roadmapReport : Bool) : Nat :=
  basePrice d + roadmapPrice roadmapReport

/-- The unit amounts of the checkout line items built by
`createCheckoutSession`: the consultation at the base price, plus the roadmap
report as a second line item when requested; every line item has quantity 1. -/
def lineItemAmounts (d : String) (roadmapReport : Bool) : List Nat :=
  [basePrice d] ++ (if roadmapReport then [roadmapPrice roadmapReport] else [])

/-- The pricing table as the specification states it: `{30 ↦ 6499, 60 ↦ 9999,
90 ↦ 15999}` euro-cents, for comparison with the lookup in the code. -/
def specBasePrice (d : String) : Nat :=
  if d = "30" then 6499 else if d = "60" then 9999 else 15999

/-- Claim C7. For any checkout-creation request whose duration is one of 30,
60 or 90 (minutes, as the string the request carries), the charged total — the
sum of the line-item amounts — equals the fixed table price the spec states for that
duration plus 5000 euro-cents exactly when the roadmap report is requested,
with no other pricing input. -/
theorem checkout_price_correct
    (d : String) (r : Bool) (hd : d = "30" ∨ d = "60" ∨ d = "90") :
    totalPrice d r = specBasePrice d + (if r then 5000 else 0)
    ∧ (lineItemAmounts d r).sum = totalPrice d r := by
  constructor
  · rcases hd with h | h | h <;> subst h <;> cases r <;> rfl
  · cases r <;> simp [lineItemAmounts, totalPrice, roadmapPrice]

/-- Witness for claim C7: a 60-minute consultation with the roadmap report is
charged 9999 + 5000 euro-cents. -/
theorem checkout_price_correct_witness :
    totalPrice "60" true = specBasePrice "60" + (if true then 5000 else 0)
    ∧ (lineItemAmounts "60" true).sum = totalPrice "60" true :=
  checkout_price_correct "60" true (Or.inr (Or.inl rfl))

/-- A character of the JavaScript `\w` class: ASCII alphanumeric or `_`. -/
def isWordChar (c : Char) : Bool := c.isAlphanum || c = '_'

/-- A character of the separator class `[\s_-]` collapsed by `generateSlug`. -/
def isSepChar (c : Char) : Bool := c.isWhitespace || c = '_' || c = '-'

/-- One step of replacing each run of separator characters by a single
hyphen, folded from the right. -/
def collapseSepStep (c : Char) (acc : List Char) : List Char :=
  if isSepChar c then
    match acc with
    | '-' :: _ => acc
    | _ => '-' :: acc
  else c :: acc

/-- `generateSlug` (`projectController.js`, lines 8-15): lowercase, trim,
strip characters outside `[\w\s-]`, collapse runs of `[\s_-]` to single
hyphens and strip leading/trailing hyphens. -/
def generateSlug (title : String) : String :=
  let kept := ((jsTrim (jsToLower title)).data.filter
    (fun c => isWordChar c || c.isWhitespace || c = '-'))
  let collapsed := kept.foldr collapseSepStep []
  String.mk (((collapsed.dropWhile (fun c => c = '-')).reverse.dropWhile
    (fun c => c = '-')).reverse)

/-- The slug-uniqueness loop of `createProject` (lines 294-301): try
`orig-counter` for increasing counters until one is not taken. The fuel is one
more than the number of stored slugs, which bounds the number of taken
candidates the loop can encounter. -/
def uniqueSlugAux (taken : List String) (orig : String) : Nat → Nat → String
  | _, 0 => orig
  | counter, fuel + 1 =>
    let cand := orig ++ ("-" ++ toString counter)
    if cand ∈ taken then uniqueSlugAux taken orig (counter + 1) fuel else cand

/-- Slug uniqueness as enforced by `createProject`: keep the base slug when no
stored project has it, otherwise append the first free numeric suffix. -/
def uniqueSlug (taken : List String) (base : String) : String :=
  if base ∈ taken then uniqueSlugAux taken base 1 (taken.length + 1) else base

/-- The `projects` document, restricted to the fields the verified operations
read or write. -/
structure Project where
  title : String
  slug : String
  tag : String
  description : String
  coverImage : Option String
  images : List String
  plans : List String
  status : String
  deriving DecidableEq, Repr

/-- Request data of `createProject` (`projectController.js`, lines 223-342):
`slugReq` is the client-supplied slug with `""` for absent (JavaScript `||`),
the image/plan lists are the uploaded URLs from the middleware and the parsed
`imagesUrls`/`plansUrls` body fields. -/
structure CreateProjectReq where
  title : String
  slugReq : String
  tag : String
  description : String
  uploadedImages : List String
  imagesUrls : List String
  uploadedPlans : List String
  plansUrls : List String
  coverImage : Option String
  status : String
  deriving DecidableEq, Repr

/-- `createProject`: validates the title, the tag and the residential-plans
rule, derives a unique slug, and inserts the project — `plans` is forced to
`[]` for a `Residential` tag. Returns the new store and the stored project, or
the 400 message. -/
def createProject (store : List Project) (req : CreateProjectReq) :
    Except String (List Project × Project) :=
  let images := (req.uploadedImages ++ req.imagesUrls).filter (fun u => u ≠ "")
  let plans := (req.uploadedPlans ++ req.plansUrls).filter (fun u => u ≠ "")
  if jsTrim req.title = "" then Except.error "Title is required"
  else if ¬ (req.tag = "Residential" ∨ req.tag = "Commercial") then
    Except.error "Tag must be either Residential or Commercial"
  else if req.tag = "Residential" ∧ plans ≠ [] then
    Except.error "Residential projects cannot have plans"
  else
    let slug := uniqueSlug (store.map Project.slug) (jsOrStr req.slugReq (generateSlug req.title))
    let p : Project :=
      { title := jsTrim req.title
        slug := slug
        tag := req.tag
        description := req.description
        coverImage := req.coverImage
        images := images
        plans := if req.tag = "Residential" then [] else plans
        status := if req.status = "published" then "published" else "draft" }
    Except.ok (store ++ [p], p)

/-- Request data of `updateProject` (`projectController.js`, lines 348-619),
restricted to the fields that decide the updated tag, title, status and plans:
`""` stands for an absent `title`/`tag` (JavaScript truthiness),
`plansUrlsSupplied` records whether the `plansUrls` body field was present at
all, and `uploadedPlans` is present exactly when the middleware uploaded plan
files. -/
structure UpdateProjectReq where
  title : String
  tag : String
  status : Option String
  plansUrlsSupplied : Bool
  plansUrls : List String
  uploadedPlans : Option (List String)
  deletedPlans : List String
  deriving DecidableEq, Repr

/-- `updateProject` on a found project: validates the supplied title and tag,
computes the effective tag (`tag || existingProject.tag`) and the final plans
(existing minus deleted, plus uploaded and supplied URLs) — forced to `[]`
when the effective tag is `Residential` — and applies the `$set`. `plans` is
written unconditionally for a residential project, and otherwise only when
plan URLs or uploads were supplied. -/
def updateProject (existing : Project) (req : UpdateProjectReq) : Except String Project :=
  if req.title ≠ "" ∧ jsTrim req.title = "" then Except.error "Title cannot be empty"
  else if req.tag ≠ "" ∧ ¬ (req.tag = "Residential" ∨ req.tag = "Commercial") then
    Except.error "Tag must be either Residential or Commercial"
  else
    let finalTag := jsOrStr req.tag existing.tag
    let filteredExistingPlans := existing.plans.filter (fun u => ¬ req.deletedPlans.contains u)
    let finalPlans :=
      if finalTag = "Residential" then []
      else (filteredExistingPlans ++ req.uploadedPlans.getD [] ++ req.plansUrls).filter
        (fun u => u ≠ "")
    if finalTag = "Residential" ∧ finalPlans ≠ [] then
      Except.error "Residential projects cannot have plans"
    else
      let p1 := { existing with
        title := if req.title ≠ "" then jsTrim req.title else existing.title
        tag := if req.tag ≠ "" then req.tag else existing.tag
        status := match req.status with
          | some s => if s = "published" then "published" else "draft"
          | none => existing.status }
      let p2 :=
        if finalTag = "Residential" then { p1 with plans := [] }
        else if req.plansUrlsSupplied ∨ req.uploadedPlans.isSome then
          { p1 with plans := finalPlans }
        else p1
      Except.ok p2

/-- Claim C6. Whenever a create or update request whose effective tag is
`Residential` actually stores a project, the `plans` of the stored project is the
empty list — whatever plans were supplied and whatever plans were previously
stored. (On create, a residential request supplying non-empty plans is
rejected outright, so nothing is stored at all.) -/
theorem residential_plans_always_empty
    (store : List Project) (req : CreateProjectReq)
    (existing : Project) (ureq : UpdateProjectReq) :
    (req.tag = "Residential" →
      ∀ out, createProject store req = Except.ok out → out.2.plans = [])
    ∧ (jsOrStr ureq.tag existing.tag = "Residential" →
      ∀ p2, updateProject existing ureq = Except.ok p2 → p2.plans = []) := by
  constructor
  · intro htag out h
    simp only [createProject] at h
    split at h
    · exact Except.noConfusion h
    · split at h
      · exact Except.noConfusion h
      · split at h
        · exact Except.noConfusion h
        · cases h
          simp [htag]
  · intro htag p2 h
    simp only [updateProject] at h
    rw [htag] at h
    split at h
    · exact Except.noConfusion h
    · split at h
      · exact Except.noConfusion h
      · simp at h
        rw [← h]

/-- A residential create request supplying no plans. -/
def resCreateReq : CreateProjectReq :=
  { title := "Villa"
    slugReq := ""
    tag := "Residential"
    description := ""
    uploadedImages := []
    imagesUrls := []
    uploadedPlans := []
    plansUrls := []
    coverImage := none
    status := "draft" }

/-- The project stored by `createProject [] resCreateReq`. -/
def resCreated : Project :=
  { title := "Villa"
    slug := "villa"
    tag := "Residential"
    description := ""
    coverImage := none
    images := []
    plans := []
    status := "draft" }

/-- A stored commercial project that carries a plan attachment. -/
def towerProject : Project :=
  { title := "Tower"
    slug := "tower"
    tag := "Commercial"
    description := ""
    coverImage := none
    images := []
    plans := ["https://cdn/plan1.pdf"]
    status := "published" }

/-- An update request retagging a project to `Residential` while supplying a
new plan URL. -/
def resUpdateReq : UpdateProjectReq :=
  { title := ""
    tag := "Residential"
    status := none
    plansUrlsSupplied := true
    plansUrls := ["https://cdn/plan2.pdf"]
    uploadedPlans := none
    deletedPlans := [] }

/-- The project stored by `updateProject towerProject resUpdateReq`. -/
def resUpdated : Project :=
  { title := "Tower"
    slug := "tower"
    tag := "Residential"
    description := ""
    coverImage := none
    images := []
    plans := []
    status := "published" }

/-- Witness for claim C6: a concrete residential creation, and a concrete
update that retags a commercial project with existing and newly supplied
plans to `Residential`, both store `plans = []`. -/
theorem residential_plans_always_empty_witness :
    ([resCreated], resCreated).2.plans = [] ∧ resUpdated.plans = [] :=
  ⟨(residential_plans_always_empty [] resCreateReq towerProject resUpdateReq).1
      rfl ([resCreated], resCreated) rfl,
    (residential_plans_always_empty [] resCreateReq towerProject resUpdateReq).2
      rfl resUpdated rfl⟩

/-- Appending a numeric suffix changes a string (the underlying character
lists have different lengths). -/
lemma append_dash_one_ne (s : String) : s ++ "-1" ≠ s := by
  intro h
  have hd : (s ++ "-1").data = s.data := congrArg String.data h
  rw [String.data_append] at hd
  have hl := congrArg List.length hd
  simp at hl

/-- The uniqueness loop returns the base slug untouched when no stored
project has it. -/
lemma uniqueSlug_of_not_mem (taken : List String) (base : String) (h : base ∉ taken) :
    uniqueSlug taken base = base := by
  unfold uniqueSlug
  rw [if_neg h]

/-- After the base slug has been stored, the uniqueness loop returns the
`-1`-suffixed slug provided that suffix is still free. -/
lemma uniqueSlug_after_base (taken : List String) (base : String)
    (h : (base ++ "-1") ∉ taken) :
    uniqueSlug (taken ++ [base]) base = base ++ "-1" := by
  unfold uniqueSlug
  rw [if_pos (by simp)]
  have hlen : (taken ++ [base]).length + 1 = taken.length + 1 + 1 := by simp
  rw [hlen]
  simp only [uniqueSlugAux]
  have hcand : base ++ ("-" ++ toString 1) = base ++ "-1" := rfl
  rw [hcand]
  rw [if_neg]
  intro hmem
  rcases List.mem_append.mp hmem with hm | hm
  · exact h hm
  · exact append_dash_one_ne base (List.mem_singleton.mp hm)

/-- The project document `createProject` inserts when validation passes. -/
def createdProject (store : List Project) (req : CreateProjectReq) : Project :=
  { title := jsTrim req.title
    slug := uniqueSlug (store.map Project.slug) (jsOrStr req.slugReq (generateSlug req.title))
    tag := req.tag
    description := req.description
    coverImage := req.coverImage
    images := (req.uploadedImages ++ req.imagesUrls).filter (fun u => u ≠ "")
    plans := if req.tag = "Residential" then []
      else (req.uploadedPlans ++ req.plansUrls).filter (fun u => u ≠ "")
    status := if req.status = "published" then "published" else "draft" }

/-- `createProject` succeeds and appends exactly one project whenever the
title is non-blank, the tag is legal and a residential request supplies no
plans; the stored slug is the uniqueness loop applied to the client slug or
the derived slug. -/
lemma createProject_ok (store : List Project) (req : CreateProjectReq)
    (htitle : jsTrim req.title ≠ "")
    (htag : req.tag = "Residential" ∨ req.tag = "Commercial")
    (hplans : req.tag = "Residential" →
      (req.uploadedPlans ++ req.plansUrls).filter (fun u => u ≠ "") = []) :
    createProject store req
      = Except.ok (store ++ [createdProject store req], createdProject store req) := by
  unfold createProject createdProject
  rw [if_neg htitle]
  rw [if_neg (fun hn => hn htag)]
  rw [if_neg (fun hc => hc.2 (hplans hc.1))]

/-- The store containing one project whose slug is `a-1` while `a` itself is
free. -/
def slugStore : List Project :=
  [{ title := "x"
     slug := "a-1"
     tag := "Commercial"
     description := ""
     coverImage := none
     images := []
     plans := []
     status := "draft" }]

/-- A create request titled `a` with no client-supplied slug. -/
def slugReqA : CreateProjectReq :=
  { title := "a"
    slugReq := ""
    tag := "Commercial"
    description := ""
    uploadedImages := []
    imagesUrls := []
    uploadedPlans := []
    plansUrls := []
    coverImage := none
    status := "draft" }

/-- The project stored by the first creation of `slugReqA` over `slugStore`. -/
def slugProjA : Project :=
  { title := "a"
    slug := "a"
    tag := "Commercial"
    description := ""
    coverImage := none
    images := []
    plans := []
    status := "draft" }

/-- The project stored by the second creation: slug `a-2`, not `a-1`. -/
def slugProjB : Project :=
  { title := "a"
    slug := "a-2"
    tag := "Commercial"
    description := ""
    coverImage := none
    images := []
    plans := []
    status := "draft" }

/-- Claim C9, counterexample. Over a store where the derived slug `a` is
absent but `a-1` happens to be taken, two creations with title `a` store
slugs `a` and `a-2` — the second is not the claimed `title-slug-1`. -/
theorem slug_collision_counterexample :
    generateSlug "a" = "a"
    ∧ generateSlug "a" ∉ slugStore.map Project.slug
    ∧ createProject slugStore slugReqA = Except.ok (slugStore ++ [slugProjA], slugProjA)
    ∧ createProject (slugStore ++ [slugProjA]) slugReqA
        = Except.ok ((slugStore ++ [slugProjA]) ++ [slugProjB], slugProjB)
    ∧ slugProjB.slug ≠ generateSlug "a" ++ "-1" := by
  refine ⟨rfl, by decide, rfl, rfl, by decide⟩

/-- Claim C9, amended. For two creations with the same title and no client
slug, over a store where both the derived slug and its `-1`-suffixed variant
are absent (and the requests pass validation), the first creation stores the
derived slug and the second stores the derived slug with suffix `-1`. The
extra freeness condition on the suffixed slug is required: when `title-slug-1`
is already taken the second creation falls through to `title-slug-2`. -/
theorem slug_collision_amended (store : List Project) (req : CreateProjectReq)
    (hslug : req.slugReq = "")
    (htitle : jsTrim req.title ≠ "")
    (htag : req.tag = "Residential" ∨ req.tag = "Commercial")
    (hplans : req.tag = "Residential" →
      (req.uploadedPlans ++ req.plansUrls).filter (fun u => u ≠ "") = [])
    (hfree : generateSlug req.title ∉ store.map Project.slug)
    (hfree1 : (generateSlug req.title ++ "-1") ∉ store.map Project.slug) :
    ∃ store1 p1 store2 p2,
      createProject store req = Except.ok (store1, p1)
      ∧ p1.slug = generateSlug req.title
      ∧ createProject store1 req = Except.ok (store2, p2)
      ∧ p2.slug = generateSlug req.title ++ "-1" := by
  have hbase : jsOrStr req.slugReq (generateSlug req.title) = generateSlug req.title := by
    rw [hslug]
    rfl
  have hs1 : (createdProject store req).slug = generateSlug req.title := by
    show uniqueSlug (store.map Project.slug) (jsOrStr req.slugReq (generateSlug req.title))
      = generateSlug req.title
    rw [hbase]
    exact uniqueSlug_of_not_mem _ _ hfree
  have hs2 : (createdProject (store ++ [createdProject store req]) req).slug
      = generateSlug req.title ++ "-1" := by
    show uniqueSlug ((store ++ [createdProject store req]).map Project.slug)
        (jsOrStr req.slugReq (generateSlug req.title)) = generateSlug req.title ++ "-1"
    rw [hbase, List.map_append]
    rw [show List.map Project.slug [createdProject store req] = [generateSlug req.title] from by
      simp [hs1]]
    exact uniqueSlug_after_base _ _ hfree1
  exact ⟨_, _, _, _, createProject_ok store req htitle htag hplans, hs1,
    createProject_ok _ req htitle htag hplans, hs2⟩

/-- Witness for the amended claim C9: two creations titled `a` over the empty
store yield slugs `a` and `a-1`. -/
theorem slug_collision_amended_witness :
    ∃ store1 p1 store2 p2,
      createProject [] slugReqA = Except.ok (store1, p1)
      ∧ p1.slug = generateSlug "a"
      ∧ createProject store1 slugReqA = Except.ok (store2, p2)
      ∧ p2.slug = generateSlug "a" ++ "-1" :=
  slug_collision_amended [] slugReqA rfl (by decide) (Or.inr rfl)
    (fun h => absurd h (by decide)) (by decide) (by decide)

end Portfolio
